import Mathlib

/-!
Verification development for the auth backend (`backend/auth/index.py`).

The Python handler serves three POST actions (`register`, `login`, `profile`)
plus an OPTIONS preflight, backed by two Postgres tables (`users`,
`game_stats`).  We embed it shallowly: the database is a pair of row lists,
a connection is a committed/working pair of database states (psycopg2
transaction semantics: `commit` publishes the working state, `rollback`
discards it, and closing without commit discards it), response bodies are
structured JSON values, raised exceptions are an explicit outcome, and the
`finally` block is modelled by marking the connection closed on every exit
path.  SHA-256 (`hash_password`) is modelled as an uninterpreted
deterministic digest function passed as a parameter, as the spec describes
it ("deterministic one-way digest").
-/

namespace AuthService

/-- Atomic JSON values appearing in the handler's response bodies. -/
inductive JAtom where
  | str (s : String)
  | num (n : Int)
  | jbool (b : Bool)
  | null
deriving DecidableEq, Repr

/-- A value of a top-level body field: either an atom or a flat nested
object (the handler's bodies nest exactly one level, the `user` object). -/
inductive BodyVal where
  | atom (a : JAtom)
  | obj (fields : List (String × JAtom))
deriving DecidableEq, Repr

/-- A JSON object body: ordered fields, as produced by `json.dumps` on the
Python dict. -/
abbrev JsonBody := List (String × BodyVal)

/-- The `body` field of a response: the OPTIONS branch returns the empty
string, every other branch a serialized JSON object. -/
inductive RespBody where
  | empty
  | json (fields : JsonBody)
deriving DecidableEq, Repr

/-- An HTTP response as returned by the Python handler. -/
structure Resp where
  statusCode : Nat
  headers : List (String × String)
  body : RespBody
deriving DecidableEq, Repr

/-- A row of the `users` table: id (server-generated), unique username,
password hash, balance. -/
structure UserRow where
  id : Int
  username : String
  password : String
  balance : Int
deriving DecidableEq, Repr

/-- A row of the `game_stats` table.  Modelled from the spec: the table's
DDL is not in the repository; spec §3 fixes the columns
kills/deaths/wins/losses as integers with default 0, one row per account
keyed by `user_id`. -/
structure StatsRow where
  user_id : Int
  kills : Int
  deaths : Int
  wins : Int
  losses : Int
deriving DecidableEq, Repr

/-- The persistent store: the two tables, plus the next id the `users`
serial column will assign. -/
structure DB where
  users : List UserRow
  game_stats : List StatsRow
  nextId : Int
deriving DecidableEq, Repr

/-- Store-level errors surfaced to the handler: the unique-constraint
violation psycopg2 raises as `errors.UniqueViolation`, and any other
store failure (e.g. a failing `game_stats` insert). -/
inductive DbErr where
  | uniqueViolation
  | otherError
deriving DecidableEq, Repr

/-- Transaction state of the open connection: the committed database and
the current working view.  `cur.execute` mutates `current`; `conn.commit`
copies `current` into `committed`; `conn.rollback` restores `current`
from `committed`; closing the connection keeps only `committed`. -/
structure TxState where
  committed : DB
  current : DB
deriving DecidableEq, Repr

/-- The parsed POST body as the Python code reads it: `body_data.get(k)`
yields `None` for an absent key, hence `Option` fields. -/
structure Req where
  httpMethod : String
  action : Option String
  username : Option String
  password : Option String
  userId : Option Int
deriving DecidableEq, Repr

/-- Python truthiness check `not x` on an optional string: true for `None`
and for the empty string. -/
def isBlank : Option String → Bool
  | none => true
  | some s => s == ""

/-- The `INSERT INTO users ... RETURNING id, username, balance` statement:
raises `UniqueViolation` when the username is already present in the
working view, otherwise appends the row and returns it. -/
def insertUser (db : DB) (uname pw : String) (bal : Int) :
    Except DbErr (DB × UserRow) :=
  if db.users.any (fun r => r.username == uname) then
    .error .uniqueViolation
  else
    let row : UserRow := ⟨db.nextId, uname, pw, bal⟩
    .ok ({ db with users := db.users ++ [row], nextId := db.nextId + 1 }, row)

/-- The `INSERT INTO game_stats (user_id) VALUES (%s)` statement.  The
`statsFail` flag injects a store failure at exactly this statement (the
failure mode spec §4.1 discusses).  Modelled from the spec: the omitted
columns take the schema defaults, which spec §3 fixes at 0. -/
def insertStats (statsFail : Bool) (db : DB) (uid : Int) : Except DbErr DB :=
  if statsFail then .error .otherError
  else .ok { db with game_stats := db.game_stats ++ [⟨uid, 0, 0, 0, 0⟩] }

/-- The login query `SELECT ... FROM users WHERE username = %s AND
password = %s` followed by `fetchone`: first row matching both. -/
def findByCreds (db : DB) (uname pw : String) : Option UserRow :=
  db.users.find? (fun r => r.username == uname && r.password == pw)

/-- The profile query's row lookup `WHERE u.id = %s` with `fetchone`.  A
`None` bind parameter becomes SQL NULL, which `=` never matches. -/
def findById (db : DB) (uid : Option Int) : Option UserRow :=
  db.users.find? (fun r => uid == some r.id)

/-- The LEFT JOIN partner: the first `game_stats` row with this
`user_id`, if any. -/
def findStats (db : DB) (uid : Int) : Option StatsRow :=
  db.game_stats.find? (fun s => s.user_id == uid)

/-- The CORS/JSON headers attached to every non-OPTIONS response. -/
def corsJson : List (String × String) :=
  [("Content-Type", "application/json"), ("Access-Control-Allow-Origin", "*")]

/-- The OPTIONS preflight response. -/
def optionsResp : Resp :=
  { statusCode := 200
    headers :=
      [("Access-Control-Allow-Origin", "*"),
       ("Access-Control-Allow-Methods", "GET, POST, OPTIONS"),
       ("Access-Control-Allow-Headers", "Content-Type, X-User-Id"),
       ("Access-Control-Max-Age", "86400")]
    body := .empty }

/-- An error response: the given status with body `{"error": msg}`. -/
def errorResp (code : Nat) (msg : String) : Resp :=
  { statusCode := code, headers := corsJson
    body := .json [("error", .atom (.str msg))] }

/-- The success response of register and login: `{"success": true,
"user": {"id", "username", "balance"}}`. -/
def userOkResp (row : UserRow) : Resp :=
  { statusCode := 200, headers := corsJson
    body := .json
      [("success", .atom (.jbool true)),
       ("user", .obj
         [("id", .num row.id), ("username", .str row.username),
          ("balance", .num row.balance)])] }

/-- NULL passthrough of the LEFT JOIN: a missing stats row surfaces the
four counters as JSON null. -/
def jopt : Option Int → JAtom
  | none => .null
  | some n => .num n

/-- The success response of profile: `dict(user)` over the seven selected
columns, stats columns null when the join found no `game_stats` row. -/
def profileResp (row : UserRow) (st : Option StatsRow) : Resp :=
  { statusCode := 200, headers := corsJson
    body := .json
      [("success", .atom (.jbool true)),
       ("user", .obj
         [("id", .num row.id), ("username", .str row.username),
          ("balance", .num row.balance),
          ("kills", jopt (st.map (fun s => s.kills))),
          ("deaths", jopt (st.map (fun s => s.deaths))),
          ("wins", jopt (st.map (fun s => s.wins))),
          ("losses", jopt (st.map (fun s => s.losses)))])] }

/-- The 405 response returned after the POST dispatch falls through or for
a non-POST, non-OPTIONS method. -/
def methodNotAllowedResp : Resp := errorResp 405 "Method not allowed"

/-- How the `try` block exits: an explicit `return`, falling off the end
(unrecognized action), or a raised store error. -/
inductive TryExit where
  | ret (r : Resp)
  | fallthrough
  | exn (e : DbErr)
deriving DecidableEq, Repr

/-- The body of the `try` block: dispatch on `action`, threading the
transaction state.  `hash` is the `hash_password` digest. -/
def tryBody (hash : String → String) (statsFail : Bool) (req : Req)
    (tx : TxState) : TryExit × TxState :=
  if req.action == some "register" then
    if isBlank req.username || isBlank req.password then
      (.ret (errorResp 400 "Username and password required"), tx)
    else
      match insertUser tx.current (req.username.getD "")
          (hash (req.password.getD "")) 1000 with
      | .error e => (.exn e, tx)
      | .ok (db1, row) =>
        -- first conn.commit(): the users insert is now durable, so the
        -- stats insert below runs against committed = current = db1
        match insertStats statsFail db1 row.id with
        | .error e => (.exn e, { committed := db1, current := db1 })
        | .ok db2 => (.ret (userOkResp row), { committed := db2, current := db2 })
  else if req.action == some "login" then
    if isBlank req.username || isBlank req.password then
      (.ret (errorResp 400 "Username and password required"), tx)
    else
      match findByCreds tx.current (req.username.getD "")
          (hash (req.password.getD "")) with
      | none => (.ret (errorResp 401 "Invalid credentials"), tx)
      | some row => (.ret (userOkResp row), tx)
  else if req.action == some "profile" then
    match findById tx.current req.userId with
    | none => (.ret (errorResp 404 "User not found"), tx)
    | some row => (.ret (profileResp row (findStats tx.current row.id)), tx)
  else
    (.fallthrough, tx)

/-- What a handler call produces: a returned response, or a raised
exception escaping the handler. -/
inductive Outcome where
  | response (r : Resp)
  | raised (e : DbErr)
deriving DecidableEq, Repr

/-- The observable effect of one handler call: its outcome, the database
state that persists after the connection is gone, and whether a store
connection was acquired and released. -/
structure HResult where
  outcome : Outcome
  db : DB
  connOpened : Bool
  connClosed : Bool
deriving DecidableEq, Repr

/-- The Python `handler`.  For POST it opens a connection, runs the `try`
body, applies the `except psycopg2.errors.UniqueViolation` clause
(rollback, 409) and the `finally` clause (close the cursor and the
connection on every exit path); any other store error propagates out
after the `finally` ran.  What persists is the committed state. -/
def handler (hash : String → String) (statsFail : Bool) (req : Req)
    (db : DB) : HResult :=
  if req.httpMethod == "OPTIONS" then
    { outcome := .response optionsResp, db := db
      connOpened := false, connClosed := false }
  else if req.httpMethod == "POST" then
    let (result, tx1) := tryBody hash statsFail req { committed := db, current := db }
    match result with
    | .ret r =>
      { outcome := .response r, db := tx1.committed
        connOpened := true, connClosed := true }
    | .fallthrough =>
      { outcome := .response methodNotAllowedResp, db := tx1.committed
        connOpened := true, connClosed := true }
    | .exn .uniqueViolation =>
      -- except clause: conn.rollback() then return 409; finally closes
      { outcome := .response (errorResp 409 "Username already exists"), db := tx1.committed
        connOpened := true, connClosed := true }
    | .exn .otherError =>
      { outcome := .raised .otherError, db := tx1.committed
        connOpened := true, connClosed := true }
  else
    { outcome := .response methodNotAllowedResp, db := db
      connOpened := false, connClosed := false }

/-- A concrete stand-in digest used only to evaluate the model at concrete
inputs; every theorem below is proved for an arbitrary digest function. -/
def demoHash : String → String := fun s => String.append "sha256:" s

/-- The five fixed error messages the handler can emit. -/
def errMessages : List String :=
  ["Username and password required", "Invalid credentials",
   "User not found", "Username already exists", "Method not allowed"]

/-- Whether a JSON atom is the string `t`. -/
def atomIs : JAtom → String → Bool
  | .str s, t => s == t
  | _, _ => false

/-- Whether a body field value contains the string `t` as a string value. -/
def valContains : BodyVal → String → Bool
  | .atom a, t => atomIs a t
  | .obj fields, t => fields.any (fun kv => atomIs kv.2 t)

/-- Whether a response body contains the string `t` anywhere as a string
value. -/
def bodyContains : RespBody → String → Bool
  | .empty, _ => false
  | .json fields, t => fields.any (fun kv => valContains kv.2 t)

/-- The body of an outcome's response; raised outcomes carry no body. -/
def outcomeBody : Outcome → RespBody
  | .response r => r.body
  | .raised _ => .empty

theorem any_username_eq_false {l : List UserRow} {u : String}
    (h : ∀ r ∈ l, r.username ≠ u) :
    (l.any (fun r => r.username == u)) = false := by
  simp only [List.any_eq_false, beq_iff_eq]
  exact h

theorem insertUser_ok {db db' : DB} {u p : String} {b : Int} {row : UserRow}
    (h : insertUser db u p b = .ok (db', row)) :
    row = ⟨db.nextId, u, p, b⟩ ∧
      db' = { db with users := db.users ++ [⟨db.nextId, u, p, b⟩],
                      nextId := db.nextId + 1 } := by
  unfold insertUser at h
  split at h
  · exact absurd h (by simp)
  · simp only [Except.ok.injEq, Prod.mk.injEq] at h
    exact ⟨h.2.symm, h.1.symm⟩

theorem find?_append_fresh {l : List UserRow} {u pw : String}
    (h : ∀ r ∈ l, r.username ≠ u) {row : UserRow}
    (hru : row.username = u) (hrp : row.password = pw) :
    (l ++ [row]).find? (fun r => r.username == u && r.password == pw)
      = some row := by
  induction l with
  | nil => simp [hru, hrp]
  | cons a as ih =>
    have ha : (a.username == u && a.password == pw) = false := by
      simp only [Bool.and_eq_false_iff, beq_eq_false_iff_ne, ne_eq]
      exact Or.inl (h a (List.mem_cons_self a as))
    rw [List.cons_append, List.find?_cons_of_neg _ (by simp [ha])]
    exact ih (fun r hr => h r (List.mem_cons_of_mem a hr))

theorem register_fresh_eq (hash : String → String) (u p : String)
    (uid : Option Int) (db : DB) (hu : u ≠ "") (hp : p ≠ "")
    (hfresh : ∀ r ∈ db.users, r.username ≠ u) :
    handler hash false ⟨"POST", some "register", some u, some p, uid⟩ db =
      { outcome := .response (userOkResp ⟨db.nextId, u, hash p, 1000⟩)
        db := { users := db.users ++ [⟨db.nextId, u, hash p, 1000⟩]
                game_stats := db.game_stats ++ [⟨db.nextId, 0, 0, 0, 0⟩]
                nextId := db.nextId + 1 }
        connOpened := true, connClosed := true } := by
  have h1 : (u == "") = false := beq_eq_false_iff_ne.mpr hu
  have h2 : (p == "") = false := beq_eq_false_iff_ne.mpr hp
  have hany := any_username_eq_false hfresh
  simp [handler, tryBody, insertUser, insertStats, isBlank, hany, h1, h2]

/-- C1: the spec requires the Account and Stats inserts to form one atomic
transaction, so a failing Stats insert must leave no Account row and
surface as DependencyError.  The code instead calls `conn.commit()` between
the two inserts (index.py line 69): evaluated at a register request whose
`game_stats` insert fails, the store error propagates raw and the committed
store keeps the orphan `users` row with no `game_stats` row — the exact
partial state the spec forbids. -/
theorem register_stats_failure_leaves_orphan_account :
    (handler demoHash true ⟨"POST", some "register", some "alice", some "pw1", none⟩
        ⟨[], [], 1⟩).outcome = .raised .otherError ∧
    (handler demoHash true ⟨"POST", some "register", some "alice", some "pw1", none⟩
        ⟨[], [], 1⟩).db.users = [⟨1, "alice", demoHash "pw1", 1000⟩] ∧
    (handler demoHash true ⟨"POST", some "register", some "alice", some "pw1", none⟩
        ⟨[], [], 1⟩).db.game_stats = [] :=
  ⟨rfl, rfl, rfl⟩

/-- C2: registering a fresh username with a non-empty password succeeds
with balance 1000, and a login with the same credentials against the
resulting store succeeds and returns the very same user row (hence the
same identifier). -/
theorem register_then_login_same_identity (hash : String → String)
    (u p : String) (uid uid2 : Option Int) (db : DB)
    (hu : u ≠ "") (hp : p ≠ "") (hfresh : ∀ r ∈ db.users, r.username ≠ u) :
    ∃ row : UserRow,
      (handler hash false ⟨"POST", some "register", some u, some p, uid⟩ db).outcome
        = .response (userOkResp row) ∧
      row.balance = 1000 ∧
      (handler hash false ⟨"POST", some "login", some u, some p, uid2⟩
          (handler hash false ⟨"POST", some "register", some u, some p, uid⟩ db).db).outcome
        = .response (userOkResp row) := by
  refine ⟨⟨db.nextId, u, hash p, 1000⟩, ?_, rfl, ?_⟩
  · rw [register_fresh_eq hash u p uid db hu hp hfresh]
  · rw [register_fresh_eq hash u p uid db hu hp hfresh]
    have h1 : (u == "") = false := beq_eq_false_iff_ne.mpr hu
    have h2 : (p == "") = false := beq_eq_false_iff_ne.mpr hp
    have hfind := @find?_append_fresh db.users u (hash p) hfresh
      ⟨db.nextId, u, hash p, 1000⟩ rfl rfl
    simp [handler, tryBody, isBlank, findByCreds, h1, h2, hfind]

/-- Witness for C2 at a concrete input: empty store, register then login
as alice. -/
theorem register_then_login_same_identity_witness :
    ∃ row : UserRow,
      (handler demoHash false
          ⟨"POST", some "register", some "alice", some "secret1", none⟩
          ⟨[], [], 1⟩).outcome = .response (userOkResp row) ∧
      row.balance = 1000 ∧
      (handler demoHash false
          ⟨"POST", some "login", some "alice", some "secret1", none⟩
          (handler demoHash false
            ⟨"POST", some "register", some "alice", some "secret1", none⟩
            ⟨[], [], 1⟩).db).outcome = .response (userOkResp row) :=
  register_then_login_same_identity demoHash "alice" "secret1" none none
    ⟨[], [], 1⟩ (by decide) (by decide)
    (by intro r hr; exact absurd hr (List.not_mem_nil r))

/-- C3: a register request whose username already exists returns 409
Conflict with the fixed error body, and the persisted store is exactly the
store before the call — no Account or Stats row from the attempt remains. -/
theorem register_duplicate_conflict (hash : String → String) (sf : Bool)
    (u p : String) (uid : Option Int) (db : DB)
    (hu : u ≠ "") (hp : p ≠ "") (hdup : ∃ r ∈ db.users, r.username = u) :
    handler hash sf ⟨"POST", some "register", some u, some p, uid⟩ db =
      { outcome := .response (errorResp 409 "Username already exists")
        db := db, connOpened := true, connClosed := true } := by
  have h1 : (u == "") = false := beq_eq_false_iff_ne.mpr hu
  have h2 : (p == "") = false := beq_eq_false_iff_ne.mpr hp
  have hany : db.users.any (fun r => r.username == u) = true := by
    rcases hdup with ⟨r, hr, he⟩
    exact List.any_eq_true.mpr ⟨r, hr, by simp [he]⟩
  simp [handler, tryBody, insertUser, isBlank, hany, h1, h2]

/-- Witness for C3: registering alice a second time over a one-row store. -/
theorem register_duplicate_conflict_witness :
    handler demoHash false
        ⟨"POST", some "register", some "alice", some "pw2", none⟩
        ⟨[⟨1, "alice", demoHash "pw1", 1000⟩], [⟨1, 0, 0, 0, 0⟩], 2⟩ =
      { outcome := .response (errorResp 409 "Username already exists")
        db := ⟨[⟨1, "alice", demoHash "pw1", 1000⟩], [⟨1, 0, 0, 0, 0⟩], 2⟩
        connOpened := true, connClosed := true } :=
  register_duplicate_conflict demoHash false "alice" "pw2" none
    ⟨[⟨1, "alice", demoHash "pw1", 1000⟩], [⟨1, 0, 0, 0, 0⟩], 2⟩
    (by decide) (by decide) ⟨⟨1, "alice", demoHash "pw1", 1000⟩, by simp, rfl⟩

/-- C4: every POST request acquires the store connection and releases it on
every exit path — returned response, 409 conflict path, and a raised store
error alike. -/
theorem post_releases_connection (hash : String → String) (sf : Bool)
    (req : Req) (db : DB) (hpost : req.httpMethod = "POST") :
    (handler hash sf req db).connOpened = true ∧
    (handler hash sf req db).connClosed = true := by
  unfold handler
  rw [hpost]
  rcases h : tryBody hash sf req ⟨db, db⟩ with ⟨e, tx⟩
  cases e with
  | ret r => simp [h]
  | fallthrough => simp [h]
  | exn d => cases d <;> simp [h]

/-- Witness for C4: a POST with an unrecognized action still opens and
closes the connection. -/
theorem post_releases_connection_witness :
    (handler demoHash false ⟨"POST", some "noop", none, none, none⟩
        ⟨[], [], 1⟩).connOpened = true ∧
    (handler demoHash false ⟨"POST", some "noop", none, none, none⟩
        ⟨[], [], 1⟩).connClosed = true :=
  post_releases_connection demoHash false ⟨"POST", some "noop", none, none, none⟩
    ⟨[], [], 1⟩ rfl

/-- C5: registering a fresh username and immediately fetching the profile
of the returned identifier yields the account's id, username and balance
together with kills, deaths, wins and losses all 0 — the `game_stats` row
inserted at registration carries the schema defaults (0 per spec §3), so
every fresh account follows the same zero convention. -/
theorem register_then_profile_default_stats (hash : String → String)
    (u p : String) (uid : Option Int) (db : DB)
    (hu : u ≠ "") (hp : p ≠ "")
    (hfresh : ∀ r ∈ db.users, r.username ≠ u)
    (hid : ∀ r ∈ db.users, r.id ≠ db.nextId)
    (hsid : ∀ s ∈ db.game_stats, s.user_id ≠ db.nextId) :
    (handler hash false ⟨"POST", some "register", some u, some p, uid⟩ db).outcome
      = .response (userOkResp ⟨db.nextId, u, hash p, 1000⟩) ∧
    (handler hash false ⟨"POST", some "profile", none, none, some db.nextId⟩
        (handler hash false ⟨"POST", some "register", some u, some p, uid⟩ db).db).outcome
      = .response (profileResp ⟨db.nextId, u, hash p, 1000⟩
          (some ⟨db.nextId, 0, 0, 0, 0⟩)) := by
  constructor
  · rw [register_fresh_eq hash u p uid db hu hp hfresh]
  · rw [register_fresh_eq hash u p uid db hu hp hfresh]
    have hnu : db.users.find? (fun r => db.nextId == r.id) = none :=
      List.find?_eq_none.mpr (fun r hr => by
        simp only [beq_iff_eq]
        exact fun he => hid r hr he.symm)
    have hns : db.game_stats.find? (fun s => s.user_id == db.nextId) = none :=
      List.find?_eq_none.mpr (fun s hs => by
        simp only [beq_iff_eq]
        exact hsid s hs)
    simp [handler, tryBody, findById, findStats, hnu, hns]

/-- Witness for C5: register alice on the empty store, then fetch
profile 1: all four counters come back 0. -/
theorem register_then_profile_default_stats_witness :
    (handler demoHash false
        ⟨"POST", some "register", some "alice", some "secret1", none⟩
        ⟨[], [], 1⟩).outcome
      = .response (userOkResp ⟨1, "alice", demoHash "secret1", 1000⟩) ∧
    (handler demoHash false ⟨"POST", some "profile", none, none, some 1⟩
        (handler demoHash false
          ⟨"POST", some "register", some "alice", some "secret1", none⟩
          ⟨[], [], 1⟩).db).outcome
      = .response (profileResp ⟨1, "alice", demoHash "secret1", 1000⟩
          (some ⟨1, 0, 0, 0, 0⟩)) :=
  register_then_profile_default_stats demoHash "alice" "secret1" none
    ⟨[], [], 1⟩ (by decide) (by decide)
    (by intro r hr; exact absurd hr (List.not_mem_nil r))
    (by intro r hr; exact absurd hr (List.not_mem_nil r))
    (by intro s hs; exact absurd hs (List.not_mem_nil s))

/-- C7: a login whose username/hash pair matches no stored account — be it
an unknown username or a wrong password — returns the one fixed 401
response, so the two causes are indistinguishable to the caller, and the
store is untouched. -/
theorem login_no_match_unauthorized (hash : String → String) (sf : Bool)
    (u p : String) (uid : Option Int) (db : DB)
    (hu : u ≠ "") (hp : p ≠ "")
    (hnomatch : ∀ r ∈ db.users, ¬(r.username = u ∧ r.password = hash p)) :
    handler hash sf ⟨"POST", some "login", some u, some p, uid⟩ db =
      { outcome := .response (errorResp 401 "Invalid credentials")
        db := db, connOpened := true, connClosed := true } := by
  have h1 : (u == "") = false := beq_eq_false_iff_ne.mpr hu
  have h2 : (p == "") = false := beq_eq_false_iff_ne.mpr hp
  have hfind : findByCreds db u (hash p) = none := by
    unfold findByCreds
    refine List.find?_eq_none.mpr (fun r hr => ?_)
    simp only [Bool.and_eq_true, beq_iff_eq, not_and]
    exact fun ha hb => hnomatch r hr ⟨ha, hb⟩
  simp [handler, tryBody, isBlank, h1, h2, hfind]

/-- Witness for C7: wrong password for an existing user hits the 401
response. -/
theorem login_no_match_unauthorized_witness :
    handler demoHash false
        ⟨"POST", some "login", some "alice", some "wrong", none⟩
        ⟨[⟨1, "alice", demoHash "pw1", 1000⟩], [⟨1, 0, 0, 0, 0⟩], 2⟩ =
      { outcome := .response (errorResp 401 "Invalid credentials")
        db := ⟨[⟨1, "alice", demoHash "pw1", 1000⟩], [⟨1, 0, 0, 0, 0⟩], 2⟩
        connOpened := true, connClosed := true } :=
  login_no_match_unauthorized demoHash false "alice" "wrong" none
    ⟨[⟨1, "alice", demoHash "pw1", 1000⟩], [⟨1, 0, 0, 0, 0⟩], 2⟩
    (by decide) (by decide)
    (by intro r hr hc
        simp only [List.mem_singleton] at hr
        subst hr
        exact absurd (hc.2) (by decide))

/-- C8: a register or login POST with a missing or empty username or
password returns the fixed 400 validation response and leaves the store
exactly as it was. -/
theorem missing_credentials_validation_error (hash : String → String)
    (sf : Bool) (req : Req) (db : DB) (hpost : req.httpMethod = "POST")
    (hact : req.action = some "register" ∨ req.action = some "login")
    (hblank : isBlank req.username = true ∨ isBlank req.password = true) :
    handler hash sf req db =
      { outcome := .response (errorResp 400 "Username and password required")
        db := db, connOpened := true, connClosed := true } := by
  have hb : (isBlank req.username || isBlank req.password) = true := by
    rcases hblank with h | h <;> simp [h]
  rcases hact with h | h <;> simp [handler, tryBody, hpost, h, hb]

/-- Witness for C8: registering with an empty password is rejected with
400. -/
theorem missing_credentials_validation_error_witness :
    handler demoHash false ⟨"POST", some "register", some "alice", some "", none⟩
        ⟨[], [], 1⟩ =
      { outcome := .response (errorResp 400 "Username and password required")
        db := ⟨[], [], 1⟩, connOpened := true, connClosed := true } :=
  missing_credentials_validation_error demoHash false
    ⟨"POST", some "register", some "alice", some "", none⟩ ⟨[], [], 1⟩
    rfl (Or.inl rfl) (Or.inr rfl)

/-- C9: a profile request whose userId matches no stored account — the
absent/null userId included, since SQL NULL matches no row — returns the
fixed 404 response and leaves the store unchanged. -/
theorem profile_unknown_id_not_found (hash : String → String) (sf : Bool)
    (uname pw : Option String) (uid : Option Int) (db : DB)
    (hnone : ∀ r ∈ db.users, uid ≠ some r.id) :
    handler hash sf ⟨"POST", some "profile", uname, pw, uid⟩ db =
      { outcome := .response (errorResp 404 "User not found")
        db := db, connOpened := true, connClosed := true } := by
  have hfind : findById db uid = none := by
    unfold findById
    refine List.find?_eq_none.mpr (fun r hr => ?_)
    simp only [beq_iff_eq]
    exact hnone r hr
  simp [handler, tryBody, hfind]

/-- Witness for C9: an absent userId over a nonempty store yields 404. -/
theorem profile_unknown_id_not_found_witness :
    handler demoHash false ⟨"POST", some "profile", none, none, none⟩
        ⟨[⟨1, "alice", demoHash "pw1", 1000⟩], [⟨1, 0, 0, 0, 0⟩], 2⟩ =
      { outcome := .response (errorResp 404 "User not found")
        db := ⟨[⟨1, "alice", demoHash "pw1", 1000⟩], [⟨1, 0, 0, 0, 0⟩], 2⟩
        connOpened := true, connClosed := true } :=
  profile_unknown_id_not_found demoHash false none none none
    ⟨[⟨1, "alice", demoHash "pw1", 1000⟩], [⟨1, 0, 0, 0, 0⟩], 2⟩
    (by intro r hr; simp)

theorem tryBody_exit_cases (hash : String → String) (sf : Bool) (req : Req)
    (tx : TxState) :
    (tryBody hash sf req tx).1 = .fallthrough ∨
    (∃ e, (tryBody hash sf req tx).1 = .exn e) ∨
    (∃ c m, m ∈ errMessages ∧ 400 ≤ c ∧
      (tryBody hash sf req tx).1 = .ret (errorResp c m)) ∨
    (∃ row, (tryBody hash sf req tx).1 = .ret (userOkResp row) ∧
      (row.username = req.username.getD "" ∨ row ∈ tx.current.users)) ∨
    (∃ row st, (tryBody hash sf req tx).1 = .ret (profileResp row st) ∧
      row ∈ tx.current.users) := by
  unfold tryBody
  split
  · -- register action
    split
    · exact Or.inr (Or.inr (Or.inl
        ⟨400, _, by simp [errMessages], by norm_num, rfl⟩))
    · split
      · next e heq => exact Or.inr (Or.inl ⟨e, rfl⟩)
      · next db1 row heq =>
        split
        · next e heq2 => exact Or.inr (Or.inl ⟨e, rfl⟩)
        · next db2 heq2 =>
          refine Or.inr (Or.inr (Or.inr (Or.inl ⟨row, rfl, Or.inl ?_⟩)))
          rw [(insertUser_ok heq).1]
  · -- not register: split on the login test
    split
    · -- login action
      split
      · exact Or.inr (Or.inr (Or.inl
          ⟨400, _, by simp [errMessages], by norm_num, rfl⟩))
      · split
        · exact Or.inr (Or.inr (Or.inl
            ⟨401, _, by simp [errMessages], by norm_num, rfl⟩))
        · next row heq =>
          refine Or.inr (Or.inr (Or.inr (Or.inl ⟨row, rfl, Or.inr ?_⟩)))
          unfold findByCreds at heq
          exact List.mem_of_find?_eq_some heq
    · -- not login: split on the profile test
      split
      · -- profile action
        split
        · exact Or.inr (Or.inr (Or.inl
            ⟨404, _, by simp [errMessages], by norm_num, rfl⟩))
        · next row heq =>
          refine Or.inr (Or.inr (Or.inr (Or.inr ⟨row, _, rfl, ?_⟩)))
          unfold findById at heq
          exact List.mem_of_find?_eq_some heq
      · -- unrecognized action falls off the end of the try block
        exact Or.inl rfl

theorem handler_response_cases (hash : String → String) (sf : Bool)
    (req : Req) (db : DB) (r : Resp)
    (h : (handler hash sf req db).outcome = .response r) :
    (r = optionsResp ∧ req.httpMethod = "OPTIONS") ∨
    (∃ c m, m ∈ errMessages ∧ 400 ≤ c ∧ r = errorResp c m) ∨
    (∃ row, r = userOkResp row ∧
      (row.username = req.username.getD "" ∨ row ∈ db.users)) ∨
    (∃ row st, r = profileResp row st ∧ row ∈ db.users) := by
  unfold handler at h
  split at h
  · next hm =>
    simp only [Outcome.response.injEq] at h
    exact Or.inl ⟨h.symm, by simpa using hm⟩
  · next hm =>
    split at h
    · next hp =>
      rcases htb : tryBody hash sf req ⟨db, db⟩ with ⟨e, tx1⟩
      rw [htb] at h
      have he : (tryBody hash sf req ⟨db, db⟩).1 = e := by rw [htb]
      rcases tryBody_exit_cases hash sf req ⟨db, db⟩ with hc | ⟨d, hc⟩ |
        ⟨c, m, hm1, hm2, hc⟩ | ⟨row, hc, hrow⟩ | ⟨row, st, hc, hrow⟩ <;>
        rw [he] at hc
      · subst hc
        simp only [Outcome.response.injEq] at h
        exact Or.inr (Or.inl ⟨405, "Method not allowed",
          by simp [errMessages], by norm_num, h.symm⟩)
      · subst hc
        cases d with
        | uniqueViolation =>
          simp only [Outcome.response.injEq] at h
          exact Or.inr (Or.inl ⟨409, "Username already exists",
            by simp [errMessages], by norm_num, h.symm⟩)
        | otherError => simp at h
      · subst hc
        simp only [Outcome.response.injEq] at h
        exact Or.inr (Or.inl ⟨c, m, hm1, hm2, h.symm⟩)
      · subst hc
        simp only [Outcome.response.injEq] at h
        exact Or.inr (Or.inr (Or.inl ⟨row, h.symm, hrow⟩))
      · subst hc
        simp only [Outcome.response.injEq] at h
        exact Or.inr (Or.inr (Or.inr ⟨row, st, h.symm, hrow⟩))
    · simp only [Outcome.response.injEq] at h
      exact Or.inr (Or.inl ⟨405, "Method not allowed",
        by simp [errMessages], by norm_num, h.symm⟩)

/-- C10: every error response (status 400 and above) carries the body
`{"error": msg}` with exactly that one key mapped to a string — no
`success`, no `user` — while every 200 response to a POST carries
`{"success": true, "user": {...}}`. -/
theorem response_shape_discipline (hash : String → String) (sf : Bool)
    (req : Req) (db : DB) (r : Resp)
    (hr : (handler hash sf req db).outcome = .response r) :
    (400 ≤ r.statusCode →
      ∃ msg, r.body = .json [("error", .atom (.str msg))]) ∧
    (req.httpMethod = "POST" → r.statusCode = 200 →
      ∃ ufields, r.body = .json
        [("success", .atom (.jbool true)), ("user", .obj ufields)]) := by
  rcases handler_response_cases hash sf req db r hr with
    ⟨ho, hm⟩ | ⟨c, m, hmem, hge, he⟩ | ⟨row, he, hrw⟩ | ⟨row, st, he, hrw⟩
  · subst ho
    refine ⟨fun habs => ?_, fun hp _ => ?_⟩
    · simp [optionsResp] at habs
    · rw [hm] at hp
      exact absurd hp (by decide)
  · subst he
    refine ⟨fun _ => ⟨m, rfl⟩, fun _ h200 => ?_⟩
    · simp only [errorResp] at h200
      omega
  · subst he
    refine ⟨fun habs => ?_, fun _ _ => ⟨_, rfl⟩⟩
    simp [userOkResp] at habs
  · subst he
    refine ⟨fun habs => ?_, fun _ _ => ⟨_, rfl⟩⟩
    simp [profileResp] at habs

/-- Witness for C10 at a concrete input: a GET request yields the 405
response, whose body is the single-key error object. -/
theorem response_shape_discipline_witness :
    (400 ≤ methodNotAllowedResp.statusCode →
      ∃ msg, methodNotAllowedResp.body = .json [("error", .atom (.str msg))]) ∧
    ((⟨"GET", none, none, none, none⟩ : Req).httpMethod = "POST" →
      methodNotAllowedResp.statusCode = 200 →
      ∃ ufields, methodNotAllowedResp.body = .json
        [("success", .atom (.jbool true)), ("user", .obj ufields)]) :=
  response_shape_discipline demoHash false ⟨"GET", none, none, none, none⟩
    ⟨[], [], 1⟩ methodNotAllowedResp rfl

theorem bodyContains_errorResp (c : Nat) (m t : String) :
    bodyContains (errorResp c m).body t = (m == t) := by
  simp [errorResp, bodyContains, valContains, atomIs]

theorem bodyContains_userOkResp (row : UserRow) (t : String) :
    bodyContains (userOkResp row).body t = (row.username == t) := by
  simp [userOkResp, bodyContains, valContains, atomIs]

theorem bodyContains_profileResp (row : UserRow) (st : Option StatsRow)
    (t : String) :
    bodyContains (profileResp row st).body t = (row.username == t) := by
  cases st <;> simp [profileResp, bodyContains, valContains, atomIs, jopt]

/-- C6 counterexample: a user may register with the username equal to the
password; the success response echoes the username, so its body does
contain the password.  Evaluated: register with username = password =
"hunter2" produces a response whose body contains the string "hunter2". -/
theorem register_echoes_password_when_username_equals_password :
    bodyContains
      (outcomeBody (handler demoHash false
        ⟨"POST", some "register", some "hunter2", some "hunter2", none⟩
        ⟨[], [], 1⟩).outcome) "hunter2" = true := rfl

/-- C6 amended: no response body contains the password or the password
hash as a string value, unless that string happens to coincide with an
echoed username (the request's or a stored one) or with one of the five
fixed error messages.  The only strings any body carries are a username
and the fixed messages, so under those side conditions neither credential
can appear. -/
theorem no_credential_value_in_response (hash : String → String) (sf : Bool)
    (req : Req) (db : DB) (r : Resp) (p : String)
    (_hp : req.password = some p)
    (hr : (handler hash sf req db).outcome = .response r)
    (hpu : p ≠ req.username.getD "") (hhu : hash p ≠ req.username.getD "")
    (hpd : ∀ row ∈ db.users, p ≠ row.username)
    (hhd : ∀ row ∈ db.users, hash p ≠ row.username)
    (hpe : p ∉ errMessages) (hhe : hash p ∉ errMessages) :
    bodyContains r.body p = false ∧ bodyContains r.body (hash p) = false := by
  rcases handler_response_cases hash sf req db r hr with
    ⟨ho, _⟩ | ⟨c, m, hmem, _, he⟩ | ⟨row, he, hrw⟩ | ⟨row, st, he, hrw⟩
  · subst ho
    exact ⟨rfl, rfl⟩
  · subst he
    rw [bodyContains_errorResp, bodyContains_errorResp]
    refine ⟨beq_eq_false_iff_ne.mpr ?_, beq_eq_false_iff_ne.mpr ?_⟩
    · exact fun he2 => hpe (he2 ▸ hmem)
    · exact fun he2 => hhe (he2 ▸ hmem)
  · subst he
    rw [bodyContains_userOkResp, bodyContains_userOkResp]
    rcases hrw with hru | hmem2
    · refine ⟨beq_eq_false_iff_ne.mpr ?_, beq_eq_false_iff_ne.mpr ?_⟩
      · exact fun he2 => hpu (he2.symm.trans hru)
      · exact fun he2 => hhu (he2.symm.trans hru)
    · refine ⟨beq_eq_false_iff_ne.mpr ?_, beq_eq_false_iff_ne.mpr ?_⟩
      · exact fun he2 => hpd row hmem2 he2.symm
      · exact fun he2 => hhd row hmem2 he2.symm
  · subst he
    rw [bodyContains_profileResp, bodyContains_profileResp]
    refine ⟨beq_eq_false_iff_ne.mpr ?_, beq_eq_false_iff_ne.mpr ?_⟩
    · exact fun he2 => hpd row hrw he2.symm
    · exact fun he2 => hhd row hrw he2.symm

/-- Witness for the amended C6: registering alice with password secret1
over the empty store yields a response containing neither "secret1" nor
its digest. -/
theorem no_credential_value_in_response_witness :
    bodyContains (userOkResp ⟨1, "alice", demoHash "secret1", 1000⟩).body
        "secret1" = false ∧
    bodyContains (userOkResp ⟨1, "alice", demoHash "secret1", 1000⟩).body
        (demoHash "secret1") = false :=
  no_credential_value_in_response demoHash false
    ⟨"POST", some "register", some "alice", some "secret1", none⟩
    ⟨[], [], 1⟩ (userOkResp ⟨1, "alice", demoHash "secret1", 1000⟩)
    "secret1" rfl rfl (by decide) (by decide)
    (by intro row hrow; exact absurd hrow (List.not_mem_nil row))
    (by intro row hrow; exact absurd hrow (List.not_mem_nil row))
    (by decide) (by decide)

end AuthService
